import Mathlib

/-!
Shallow embedding of `src/core/grabber/include/device_grabber.hpp`
(Karabiner-Elements device grab/ungrab orchestration).

The orchestration state (`device_grabber`) and its operations are translated
directly from the C++ source.  The per-device handle
(`human_interface_device`), the remapping engine, the system caps-lock
facility and the session client are external collaborators whose headers are
not part of the embedded core; their observable effects are recorded in an
explicit trace of `call`s and, where the spec describes their state, in
fields of the device record.  Every operation returns the updated state
paired with the list of observable calls it made, in program order.
-/

namespace Krbn

/-- LED state of a keyboard caps-lock indicator (krbn::led_state). -/
inductive led_state
  | on
  | off
deriving DecidableEq, Repr

/-- Capability mode of one device handle: non-exclusive observation,
exclusive seizure, or neither.  Modelled from the spec: the per-device
handle (human_interface_device) is an external collaborator; observation
and exclusive seizure are mutually exclusive modes on a device. -/
inductive hid_mode
  | idle
  | observed
  | grabbed
deriving DecidableEq, Repr

/-- One matched input device as tracked by the Device Registry.
`ident` is the stable OS identity used as the registry key
(the IOHIDDeviceRef in the source); `registry_entry_id` is the id
forwarded to the remapping engine.  Modelled from the spec: the handle's
buffered changed/pressed key state is summarised by its counts, which is
all the orchestration core ever reads or clears. -/
structure human_interface_device where
  ident : Nat
  manufacturer : Option String
  registry_entry_id : Nat
  pressed_keys_count : Nat
  changed_keys_count : Nat
  mode : hid_mode
  caps_lock_led : Option led_state
deriving DecidableEq, Repr

/-- Observable calls made by the orchestration core on its collaborators:
per-device handle operations (tagged by the device's `ident`), logger
messages, remapping-engine dispatch, the system caps-lock facility, the
session client, the modifier flag manager, and timer lifecycle events. -/
inductive call
  | hid_observe (ident : Nat)
  | hid_unobserve (ident : Nat)
  | hid_seize (ident : Nat)
  | hid_release (ident : Nat)
  | hid_set_caps_lock_led (ident : Nat) (st : led_state)
  | hid_clear_changed_keys (ident : Nat)
  | hid_clear_pressed_keys (ident : Nat)
  | log_warn (msg : String)
  | log_info (msg : String)
  | handle_keyboard_event (device_registry_entry_id : Nat) (key_code : Nat) (pressed : Bool)
  | set_caps_lock_state (b : Bool)
  | stop_key_repeat
  | modifier_flag_manager_reset
  | timer_cancel (t : Nat)
  | timer_create (t : Nat)
deriving DecidableEq, Repr

/-- Modelled from the spec: `hid.observe(callback)` puts the handle into
non-exclusive observation mode. -/
def hid_do_observe (hid : human_interface_device) : human_interface_device × List call :=
  ({ hid with mode := hid_mode.observed }, [call.hid_observe hid.ident])

/-- Modelled from the spec: `hid.unobserve()` stops observation. -/
def hid_do_unobserve (hid : human_interface_device) : human_interface_device × List call :=
  ({ hid with mode := hid_mode.idle }, [call.hid_unobserve hid.ident])

/-- Modelled from the spec: `hid.grab(callback)` seizes the device
exclusively. -/
def hid_do_grab (hid : human_interface_device) : human_interface_device × List call :=
  ({ hid with mode := hid_mode.grabbed }, [call.hid_seize hid.ident])

/-- Modelled from the spec: `hid.ungrab()` releases the exclusive seize. -/
def hid_do_ungrab (hid : human_interface_device) : human_interface_device × List call :=
  ({ hid with mode := hid_mode.idle }, [call.hid_release hid.ident])

/-- Modelled from the spec: `hid.set_caps_lock_led_state(state)`. -/
def hid_do_set_caps_lock_led_state (st : led_state) (hid : human_interface_device) :
    human_interface_device × List call :=
  ({ hid with caps_lock_led := some st }, [call.hid_set_caps_lock_led hid.ident st])

/-- Modelled from the spec: `hid.clear_changed_keys()`. -/
def hid_do_clear_changed_keys (hid : human_interface_device) : human_interface_device × List call :=
  ({ hid with changed_keys_count := 0 }, [call.hid_clear_changed_keys hid.ident])

/-- Modelled from the spec: `hid.clear_pressed_keys()`. -/
def hid_do_clear_pressed_keys (hid : human_interface_device) : human_interface_device × List call :=
  ({ hid with pressed_keys_count := 0 }, [call.hid_clear_pressed_keys hid.ident])

/-- A device whose manufacturer string identifies it as self-originated:
the source compares the manufacturer against the literal "pqrs.org". -/
def is_self_originated (hid : human_interface_device) : Prop :=
  hid.manufacturer = some "pqrs.org"

instance (hid : human_interface_device) : Decidable (is_self_originated hid) := by
  unfold is_self_originated
  infer_instance

/-- State of the `device_grabber` orchestrator.  `hids_` is the Device
Registry (an association of devices keyed by their `ident`), `grab_timer_`
holds the id of the currently owned Grab Timer (if any), `alive_timers`
records every timer created and not yet cancelled (to express the
at-most-one-timer invariant), `next_timer_id` supplies fresh timer ids,
and `hid_system_caps_lock` mirrors the system caps-lock facility state
(`none` when it is unreadable).  `last_warning_message_time` is the
`__block` dedup timestamp captured by the grab-timer closure. -/
structure device_grabber where
  hids_ : List human_interface_device
  grab_timer_ : Option Nat
  alive_timers : List Nat
  next_timer_id : Nat
  grab_retry_count_ : Nat
  grabbed_ : Bool
  modifier_flag_manager_ : List Nat
  hid_system_caps_lock : Option Bool
  last_warning_message_time : Int
deriving DecidableEq, Repr

/-- `get_all_devices_pressed_keys_count`: sum of per-device pressed key
counts over the whole registry (device_grabber.hpp lines 337-343). -/
def get_all_devices_pressed_keys_count (s : device_grabber) : Nat :=
  s.hids_.foldl (fun total hid => total + hid.pressed_keys_count) 0

/-- `cancel_grab_timer`: when a timer is owned, cancel and release it and
null the handle (device_grabber.hpp lines 345-351). -/
def cancel_grab_timer (s : device_grabber) : device_grabber × List call :=
  match s.grab_timer_ with
  | some t =>
      ({ s with grab_timer_ := none,
                alive_timers := s.alive_timers.filter (fun u => u ≠ t) },
       [call.timer_cancel t])
  | none => (s, [])

/-- `observe(hid)`: registers observation with an (empty) value callback
(device_grabber.hpp lines 259-262).  No manufacturer check here. -/
def observe (hid : human_interface_device) : human_interface_device × List call :=
  hid_do_observe hid

/-- `unobserve(hid)` (device_grabber.hpp lines 264-266). -/
def unobserve (hid : human_interface_device) : human_interface_device × List call :=
  hid_do_unobserve hid

/-- Per-device `grab(hid)` (device_grabber.hpp lines 268-293): skip
self-originated devices; otherwise unobserve, seize with the value
callback, and synchronise the caps-lock LED from the system caps-lock
state (`on` only when the query returns a value that is true). -/
def grab (caps : Option Bool) (hid : human_interface_device) : human_interface_device × List call :=
  if hid.manufacturer = some "pqrs.org" then (hid, [])
  else
    let r1 := unobserve hid
    let r2 := hid_do_grab r1.1
    let r3 :=
      if caps = some true then hid_do_set_caps_lock_led_state led_state.on r2.1
      else hid_do_set_caps_lock_led_state led_state.off r2.1
    (r3.1, r1.2 ++ r2.2 ++ r3.2)

/-- Per-device `ungrab(hid)` (device_grabber.hpp lines 295-303): skip
self-originated devices; otherwise release the seize and resume
observation. -/
def ungrab (hid : human_interface_device) : human_interface_device × List call :=
  if hid.manufacturer = some "pqrs.org" then (hid, [])
  else
    let r1 := hid_do_ungrab hid
    let r2 := observe r1.1
    (r2.1, r1.2 ++ r2.2)

/-- One iteration of the grab-completion loop body
(device_grabber.hpp lines 113-117): `grab(*(it.second))`, then
`clear_changed_keys()`, then `clear_pressed_keys()`. -/
def grab_loop_step (caps : Option Bool) (hid : human_interface_device) :
    human_interface_device × List call :=
  let r1 := grab caps hid
  let r2 := hid_do_clear_changed_keys r1.1
  let r3 := hid_do_clear_pressed_keys r2.1
  (r3.1, r1.2 ++ r2.2 ++ r3.2)

/-- One iteration of the ungrab loop body
(device_grabber.hpp lines 141-145): `ungrab(*(it.second))`, then
`clear_changed_keys()`, then `clear_pressed_keys()`. -/
def ungrab_loop_step (hid : human_interface_device) : human_interface_device × List call :=
  let r1 := ungrab hid
  let r2 := hid_do_clear_changed_keys r1.1
  let r3 := hid_do_clear_pressed_keys r2.1
  (r3.1, r1.2 ++ r2.2 ++ r3.2)

/-- The "grab devices" section of the grab-timer event handler
(device_grabber.hpp lines 108-124): set the grabbed flag, run the
per-device loop, reset the modifier flag manager, force the system
caps-lock state off, log completion, and cancel the grab timer. -/
def grab_devices_grab (s : device_grabber) : device_grabber × List call :=
  let s1 := { s with grabbed_ := true }
  let caps := s1.hid_system_caps_lock
  let results := s1.hids_.map (grab_loop_step caps)
  let loop_trace := (results.map Prod.snd).flatten
  let s2 := { s1 with hids_ := results.map Prod.fst,
                      modifier_flag_manager_ := [],
                      hid_system_caps_lock := some false }
  let r := cancel_grab_timer s2
  (r.1, loop_trace ++
        [call.modifier_flag_manager_reset,
         call.set_caps_lock_state false,
         call.log_info "devices are grabbed"] ++ r.2)

/-- The grab-timer event handler (device_grabber.hpp lines 84-125), with
the tick's wall-clock time and the remapping engine's readiness as
inputs.  When the grabbed flag is set the tick returns immediately.
Otherwise the two safety preconditions yield a warning message; when a
warning is pending and was not yet emitted in this wall-clock second it
is logged and the tick returns.  Note the control flow of the source:
when a warning is pending but was already emitted in this same second,
the handler does not return and falls through to the grab section. -/
def grab_timer_tick (ready : Bool) (now : Int) (s : device_grabber) :
    device_grabber × List call :=
  if s.grabbed_ then (s, [])
  else
    let warning_message_ready : Option String :=
      if !ready then some "event_manipulator_ is not ready. Please wait for a while."
      else none
    let warning_message : Option String :=
      if get_all_devices_pressed_keys_count s > 0 then
        some "There are pressed down keys in some devices. Please release them."
      else warning_message_ready
    match warning_message with
    | some msg =>
        if s.last_warning_message_time ≠ now then
          ({ s with last_warning_message_time := now }, [call.log_warn msg])
        else
          grab_devices_grab s
    | none => grab_devices_grab s

/-- `grab_devices()` (device_grabber.hpp lines 70-128): initialise the
warning-dedup timestamp to one second in the past, cancel any prior grab
timer, reset the retry count, and create and arm a fresh periodic timer. -/
def grab_devices (now : Int) (s : device_grabber) : device_grabber × List call :=
  let s0 := { s with last_warning_message_time := now - 1 }
  let r1 := cancel_grab_timer s0
  let s1 := { r1.1 with grab_retry_count_ := 0 }
  let tid := s1.next_timer_id
  let s2 := { s1 with grab_timer_ := some tid,
                      alive_timers := s1.alive_timers ++ [tid],
                      next_timer_id := tid + 1 }
  (s2, r1.2 ++ [call.timer_create tid])

/-- `ungrab_devices()` (device_grabber.hpp lines 130-153): return at once
when not grabbed; otherwise clear the grabbed flag, cancel the timer,
run the per-device ungrab loop, reset the modifier flag manager, force
the system caps-lock state off, stop key repeat on the session client,
and log completion. -/
def ungrab_devices (s : device_grabber) : device_grabber × List call :=
  if !s.grabbed_ then (s, [])
  else
    let s1 := { s with grabbed_ := false }
    let r1 := cancel_grab_timer s1
    let results := r1.1.hids_.map ungrab_loop_step
    let loop_trace := (results.map Prod.snd).flatten
    let s2 := { r1.1 with hids_ := results.map Prod.fst,
                          modifier_flag_manager_ := [],
                          hid_system_caps_lock := some false }
    (s2, r1.2 ++ loop_trace ++
         [call.modifier_flag_manager_reset,
          call.set_caps_lock_state false,
          call.stop_key_repeat,
          call.log_info "devices are ungrabbed"])

/-- Insert a freshly created device into the registry under its identity,
replacing any existing entry with the same key
(`hids_[device] = std::make_unique<...>`). -/
def registry_insert (hid : human_interface_device) (l : List human_interface_device) :
    List human_interface_device :=
  if l.any (fun h => h.ident == hid.ident) then
    l.map (fun h => if h.ident == hid.ident then hid else h)
  else l ++ [hid]

/-- Replace the registry entry whose key matches `h.ident` with `h`
(the loop bodies mutate `*(it.second)` in place). -/
def registry_update (h : human_interface_device) (l : List human_interface_device) :
    List human_interface_device :=
  l.map (fun x => if x.ident == h.ident then h else x)

/-- `device_matching_callback` (device_grabber.hpp lines 179-217): insert
the device into the registry, log its metadata, then grab it when the
grabbed flag is set and observe it otherwise. -/
def device_matching_callback (s : device_grabber) (hid : human_interface_device) :
    device_grabber × List call :=
  let s1 := { s with hids_ := registry_insert hid s.hids_ }
  if s1.grabbed_ then
    let r := grab s1.hid_system_caps_lock hid
    ({ s1 with hids_ := registry_update r.1 s1.hids_ },
     [call.log_info "matching device"] ++ r.2)
  else
    let r := observe hid
    ({ s1 with hids_ := registry_update r.1 s1.hids_ },
     [call.log_info "matching device"] ++ r.2)

/-- `device_removal_callback` (device_grabber.hpp lines 232-257): look the
identity up in the registry; on a hit log the device metadata and erase
the entry, on a miss do nothing. -/
def device_removal_callback (s : device_grabber) (ident : Nat) :
    device_grabber × List call :=
  match s.hids_.find? (fun h => h.ident == ident) with
  | some _ =>
      ({ s with hids_ := s.hids_.filter (fun h => !(h.ident == ident)) },
       [call.log_info "removal device"])
  | none => (s, [])

/-- HID usage-page and usage constants used by the router
(from the Apple HID usage tables the source includes). -/
def kHIDPage_KeyboardOrKeypad : Nat := 0x07

/-- The error/undefined sentinel of the keyboard usage page. -/
def kHIDUsage_KeyboardErrorUndefined : Nat := 0x03

/-- The reserved sentinel bounding the keyboard usage page from above. -/
def kHIDUsage_Keyboard_Reserved : Nat := 0xFFFF

/-- The Apple vendor top-case (auxiliary) usage page. -/
def kHIDPage_AppleVendorTopCase : Nat := 0xFF

/-- The vendor function-key usage on the top-case page. -/
def kHIDUsage_AV_TopCase_KeyboardFn : Nat := 0x03

/-- Modelled from the spec: `krbn::key_code::vk_fn_modifier`, the dedicated
synthetic function-modifier key code (types.hpp is not part of the
embedded core); a distinguished constant outside the keyboard usage
range. -/
def vk_fn_modifier : Nat := 0x10000

/-- `value_callback` (device_grabber.hpp lines 305-335): discard events
unless grabbed; on the keyboard usage page forward usages strictly
between the two sentinels as `(registry_entry_id, usage, pressed)` with
pressed set exactly when the raw integer value is non-zero; on the Apple
top-case page forward the keyboard-fn usage as `vk_fn_modifier`; ignore
everything else.  Only the trace is produced — the state is returned
untouched, as the source mutates nothing here. -/
def value_callback (s : device_grabber) (device : human_interface_device)
    (usage_page usage : Nat) (integer_value : Int) : device_grabber × List call :=
  if !s.grabbed_ then (s, [])
  else
    let device_registry_entry_id := device.registry_entry_id
    if usage_page = kHIDPage_KeyboardOrKeypad then
      if kHIDUsage_KeyboardErrorUndefined < usage ∧ usage < kHIDUsage_Keyboard_Reserved then
        let pressed : Bool := if integer_value = 0 then false else true
        (s, [call.handle_keyboard_event device_registry_entry_id usage pressed])
      else (s, [])
    else if usage_page = kHIDPage_AppleVendorTopCase then
      if usage = kHIDUsage_AV_TopCase_KeyboardFn then
        let pressed : Bool := if integer_value = 0 then false else true
        (s, [call.handle_keyboard_event device_registry_entry_id vk_fn_modifier pressed])
      else (s, [])
    else (s, [])

/-- Whether a call is a capability-changing handle operation
(observe, unobserve, seize, release) on the device with this identity. -/
def is_seize_or_observe_call (ident : Nat) : call → Bool
  | call.hid_observe i => i == ident
  | call.hid_unobserve i => i == ident
  | call.hid_seize i => i == ident
  | call.hid_release i => i == ident
  | _ => false

/-- A concrete external keyboard used in concrete evaluations. -/
def sampleKeyboard : human_interface_device :=
  { ident := 1, manufacturer := some "Apple Inc.", registry_entry_id := 11,
    pressed_keys_count := 0, changed_keys_count := 0, mode := hid_mode.observed,
    caps_lock_led := none }

/-- The same keyboard with one key held down. -/
def sampleKeyboardPressed : human_interface_device :=
  { sampleKeyboard with pressed_keys_count := 1 }

/-- A concrete self-originated (virtual) device. -/
def sampleVirtualDevice : human_interface_device :=
  { ident := 2, manufacturer := some "pqrs.org", registry_entry_id := 22,
    pressed_keys_count := 0, changed_keys_count := 3, mode := hid_mode.idle,
    caps_lock_led := none }

/-- An ungrabbed orchestrator state with an empty registry, no timer. -/
def emptyUngrabbedState : device_grabber :=
  { hids_ := [], grab_timer_ := none, alive_timers := [], next_timer_id := 0,
    grab_retry_count_ := 0, grabbed_ := false, modifier_flag_manager_ := [],
    hid_system_caps_lock := some false, last_warning_message_time := 0 }

/-- An ungrabbed state with one keyboard holding a pressed key, the grab
timer armed, and a precondition warning already emitted at time 100. -/
def pressedState : device_grabber :=
  { hids_ := [sampleKeyboardPressed], grab_timer_ := some 0, alive_timers := [0],
    next_timer_id := 1, grab_retry_count_ := 0, grabbed_ := false,
    modifier_flag_manager_ := [], hid_system_caps_lock := some false,
    last_warning_message_time := 100 }

/-- An ungrabbed state with one idle keyboard and one self-originated
device, the grab timer armed. -/
def readyState : device_grabber :=
  { hids_ := [sampleKeyboard, sampleVirtualDevice], grab_timer_ := some 0,
    alive_timers := [0], next_timer_id := 1, grab_retry_count_ := 0,
    grabbed_ := false, modifier_flag_manager_ := [5],
    hid_system_caps_lock := some false, last_warning_message_time := 100 }

/-- A grabbed state with one keyboard and one self-originated device. -/
def grabbedState : device_grabber :=
  { hids_ := [{ sampleKeyboard with mode := hid_mode.grabbed }, sampleVirtualDevice],
    grab_timer_ := none, alive_timers := [], next_timer_id := 1,
    grab_retry_count_ := 0, grabbed_ := true, modifier_flag_manager_ := [],
    hid_system_caps_lock := some false, last_warning_message_time := 100 }

/-!
Helper lemmas about the building blocks, shared by the claim theorems.
-/

theorem cancel_grab_timer_snd (s : device_grabber) :
    (cancel_grab_timer s).2 = (s.grab_timer_.map call.timer_cancel).toList := by
  cases h : s.grab_timer_ <;> simp [cancel_grab_timer, h]

theorem cancel_grab_timer_fst (s : device_grabber) :
    (cancel_grab_timer s).1 =
      { s with grab_timer_ := none,
               alive_timers :=
                 match s.grab_timer_ with
                 | some t => s.alive_timers.filter (fun u => u ≠ t)
                 | none => s.alive_timers } := by
  obtain ⟨hids, gt, ats, nt, rc, g, mfm, caps, lw⟩ := s
  cases gt <;> simp [cancel_grab_timer]

theorem grab_of_self (caps : Option Bool) (hid : human_interface_device)
    (h : hid.manufacturer = some "pqrs.org") : grab caps hid = (hid, []) := by
  simp [grab, h]

theorem ungrab_of_self (hid : human_interface_device)
    (h : hid.manufacturer = some "pqrs.org") : ungrab hid = (hid, []) := by
  simp [ungrab, h]

theorem grab_of_not_self (caps : Option Bool) (hid : human_interface_device)
    (h : ¬ hid.manufacturer = some "pqrs.org") :
    grab caps hid =
      ({ hid with mode := hid_mode.grabbed,
                  caps_lock_led :=
                    some (if caps = some true then led_state.on else led_state.off) },
       [call.hid_unobserve hid.ident, call.hid_seize hid.ident,
        call.hid_set_caps_lock_led hid.ident
          (if caps = some true then led_state.on else led_state.off)]) := by
  by_cases hc : caps = some true <;>
    simp [grab, unobserve, hid_do_unobserve, hid_do_grab,
          hid_do_set_caps_lock_led_state, h, hc]

theorem ungrab_of_not_self (hid : human_interface_device)
    (h : ¬ hid.manufacturer = some "pqrs.org") :
    ungrab hid =
      ({ hid with mode := hid_mode.observed },
       [call.hid_release hid.ident, call.hid_observe hid.ident]) := by
  simp [ungrab, observe, hid_do_ungrab, hid_do_observe, h]

theorem grab_loop_step_of_self (caps : Option Bool) (hid : human_interface_device)
    (h : hid.manufacturer = some "pqrs.org") :
    grab_loop_step caps hid =
      ({ hid with changed_keys_count := 0, pressed_keys_count := 0 },
       [call.hid_clear_changed_keys hid.ident, call.hid_clear_pressed_keys hid.ident]) := by
  simp [grab_loop_step, grab_of_self caps hid h,
        hid_do_clear_changed_keys, hid_do_clear_pressed_keys]

theorem grab_loop_step_of_not_self (caps : Option Bool) (hid : human_interface_device)
    (h : ¬ hid.manufacturer = some "pqrs.org") :
    grab_loop_step caps hid =
      ({ hid with mode := hid_mode.grabbed,
                  caps_lock_led :=
                    some (if caps = some true then led_state.on else led_state.off),
                  changed_keys_count := 0, pressed_keys_count := 0 },
       [call.hid_unobserve hid.ident, call.hid_seize hid.ident,
        call.hid_set_caps_lock_led hid.ident
          (if caps = some true then led_state.on else led_state.off),
        call.hid_clear_changed_keys hid.ident, call.hid_clear_pressed_keys hid.ident]) := by
  simp [grab_loop_step, grab_of_not_self caps hid h,
        hid_do_clear_changed_keys, hid_do_clear_pressed_keys]

theorem ungrab_loop_step_of_self (hid : human_interface_device)
    (h : hid.manufacturer = some "pqrs.org") :
    ungrab_loop_step hid =
      ({ hid with changed_keys_count := 0, pressed_keys_count := 0 },
       [call.hid_clear_changed_keys hid.ident, call.hid_clear_pressed_keys hid.ident]) := by
  simp [ungrab_loop_step, ungrab_of_self hid h,
        hid_do_clear_changed_keys, hid_do_clear_pressed_keys]

theorem ungrab_loop_step_of_not_self (hid : human_interface_device)
    (h : ¬ hid.manufacturer = some "pqrs.org") :
    ungrab_loop_step hid =
      ({ hid with mode := hid_mode.observed,
                  changed_keys_count := 0, pressed_keys_count := 0 },
       [call.hid_release hid.ident, call.hid_observe hid.ident,
        call.hid_clear_changed_keys hid.ident, call.hid_clear_pressed_keys hid.ident]) := by
  simp [ungrab_loop_step, ungrab_of_not_self hid h,
        hid_do_clear_changed_keys, hid_do_clear_pressed_keys]

theorem grab_loop_step_snd_clears (caps : Option Bool) (hid : human_interface_device) :
    call.hid_clear_changed_keys hid.ident ∈ (grab_loop_step caps hid).2 ∧
    call.hid_clear_pressed_keys hid.ident ∈ (grab_loop_step caps hid).2 := by
  by_cases h : hid.manufacturer = some "pqrs.org"
  · simp [grab_loop_step_of_self caps hid h]
  · simp [grab_loop_step_of_not_self caps hid h]

theorem ungrab_loop_step_snd_clears (hid : human_interface_device) :
    call.hid_clear_changed_keys hid.ident ∈ (ungrab_loop_step hid).2 ∧
    call.hid_clear_pressed_keys hid.ident ∈ (ungrab_loop_step hid).2 := by
  by_cases h : hid.manufacturer = some "pqrs.org"
  · simp [ungrab_loop_step_of_self hid h]
  · simp [ungrab_loop_step_of_not_self hid h]

theorem grab_loop_step_fst_facts (caps : Option Bool) (hid : human_interface_device) :
    (grab_loop_step caps hid).1.changed_keys_count = 0 ∧
    (grab_loop_step caps hid).1.pressed_keys_count = 0 ∧
    (grab_loop_step caps hid).1.manufacturer = hid.manufacturer ∧
    (grab_loop_step caps hid).1.ident = hid.ident ∧
    (¬ hid.manufacturer = some "pqrs.org" →
      (grab_loop_step caps hid).1.mode = hid_mode.grabbed) := by
  by_cases h : hid.manufacturer = some "pqrs.org"
  · simp [grab_loop_step_of_self caps hid h, h]
  · simp [grab_loop_step_of_not_self caps hid h, h]

theorem ungrab_loop_step_fst_facts (hid : human_interface_device) :
    (ungrab_loop_step hid).1.changed_keys_count = 0 ∧
    (ungrab_loop_step hid).1.pressed_keys_count = 0 ∧
    (ungrab_loop_step hid).1.manufacturer = hid.manufacturer ∧
    (ungrab_loop_step hid).1.ident = hid.ident ∧
    (¬ hid.manufacturer = some "pqrs.org" →
      (ungrab_loop_step hid).1.mode = hid_mode.observed) := by
  by_cases h : hid.manufacturer = some "pqrs.org"
  · simp [ungrab_loop_step_of_self hid h, h]
  · simp [ungrab_loop_step_of_not_self hid h, h]

theorem mem_flatten_map {α β : Type} (f : α → List β) (l : List α) (a : α) (b : β)
    (ha : a ∈ l) (hb : b ∈ f a) : b ∈ (l.map f).flatten := by
  rw [List.mem_flatten]
  exact ⟨f a, List.mem_map_of_mem f ha, hb⟩

theorem grab_devices_grab_spec (s : device_grabber) :
    (grab_devices_grab s).1.grabbed_ = true ∧
    (grab_devices_grab s).1.hids_ =
      s.hids_.map (fun hid => (grab_loop_step s.hid_system_caps_lock hid).1) ∧
    (grab_devices_grab s).1.modifier_flag_manager_ = [] ∧
    (grab_devices_grab s).1.hid_system_caps_lock = some false ∧
    (grab_devices_grab s).1.grab_timer_ = none ∧
    (grab_devices_grab s).2 =
      (s.hids_.map (fun hid => (grab_loop_step s.hid_system_caps_lock hid).2)).flatten ++
      [call.modifier_flag_manager_reset, call.set_caps_lock_state false,
       call.log_info "devices are grabbed"] ++
      (s.grab_timer_.map call.timer_cancel).toList := by
  obtain ⟨hids, gt, ats, nt, rc, g, mfm, caps, lw⟩ := s
  cases gt <;>
    simp [grab_devices_grab, cancel_grab_timer, List.map_map, Function.comp_def]

theorem ungrab_devices_spec (s : device_grabber) (h : s.grabbed_ = true) :
    (ungrab_devices s).1.grabbed_ = false ∧
    (ungrab_devices s).1.hids_ = s.hids_.map (fun hid => (ungrab_loop_step hid).1) ∧
    (ungrab_devices s).1.modifier_flag_manager_ = [] ∧
    (ungrab_devices s).1.hid_system_caps_lock = some false ∧
    (ungrab_devices s).1.grab_timer_ = none ∧
    (ungrab_devices s).2 =
      (s.grab_timer_.map call.timer_cancel).toList ++
      (s.hids_.map (fun hid => (ungrab_loop_step hid).2)).flatten ++
      [call.modifier_flag_manager_reset, call.set_caps_lock_state false,
       call.stop_key_repeat, call.log_info "devices are ungrabbed"] := by
  obtain ⟨hids, gt, ats, nt, rc, g, mfm, caps, lw⟩ := s
  subst h
  cases gt <;>
    simp [ungrab_devices, cancel_grab_timer, List.map_map, Function.comp_def]

theorem grab_timer_tick_success (ready : Bool) (now : Int) (s : device_grabber)
    (hg : s.grabbed_ = false) (hr : ready = true)
    (hp : get_all_devices_pressed_keys_count s = 0) :
    grab_timer_tick ready now s = grab_devices_grab s := by
  subst hr
  simp [grab_timer_tick, hg, hp]

/-- C1: the claim says a grab-timer tick whose safety preconditions fail
(engine not ready, or pressed keys outstanding) never sets the Grabbed
Flag and never seizes a device, no matter how many consecutive ticks
occur.  The code violates this: in `pressedState` one key is pressed, so
a tick at a fresh wall-clock second (101) only warns and leaves the flag
false, but a tick falling in the same second as the last emitted warning
(100) falls through the de-duplication branch, sets the Grabbed Flag and
seizes the keyboard even though its key is still down. -/
theorem C1_safety_gate_violated_on_dedup_tick :
    pressedState.grabbed_ = false ∧
    get_all_devices_pressed_keys_count pressedState = 1 ∧
    pressedState.last_warning_message_time = 100 ∧
    (grab_timer_tick true 101 pressedState).1.grabbed_ = false ∧
    (grab_timer_tick true 101 pressedState).2 =
      [call.log_warn "There are pressed down keys in some devices. Please release them."] ∧
    (grab_timer_tick true 100 pressedState).1.grabbed_ = true ∧
    call.hid_seize sampleKeyboardPressed.ident ∈ (grab_timer_tick true 100 pressedState).2 := by
  decide

/-- C2 counterexample: the claim says a self-originated device is never
passed to the observe operation in any state, but on a hot-plug match
while the Grabbed Flag is false, `device_matching_callback` calls
`observe` on it unconditionally — the registered value callback trace
contains `hid_observe` for the self-originated device. -/
theorem C2_counterexample_observe_on_match :
    is_self_originated sampleVirtualDevice ∧
    emptyUngrabbedState.grabbed_ = false ∧
    call.hid_observe sampleVirtualDevice.ident ∈
      (device_matching_callback emptyUngrabbedState sampleVirtualDevice).2 := by
  decide

/-- C2 (amended): a self-originated device is never seized or released —
the per-device grab and ungrab operations return immediately on it with
no handle calls, and a hot-plug match while the Grabbed Flag is true
produces no handle call on it either; however, a hot-plug match while
the Grabbed Flag is false passes the device to the observe operation. -/
theorem C2_self_originated_exclusion_amended (s : device_grabber)
    (caps : Option Bool) (hid : human_interface_device)
    (h : is_self_originated hid) :
    grab caps hid = (hid, []) ∧
    ungrab hid = (hid, []) ∧
    (s.grabbed_ = true →
      (device_matching_callback s hid).2 = [call.log_info "matching device"]) ∧
    (s.grabbed_ = false →
      (device_matching_callback s hid).2 =
        [call.log_info "matching device", call.hid_observe hid.ident]) := by
  have hm : hid.manufacturer = some "pqrs.org" := h
  refine ⟨grab_of_self caps hid hm, ungrab_of_self hid hm, ?_, ?_⟩
  · intro hg
    simp [device_matching_callback, hg, grab_of_self _ hid hm]
  · intro hg
    simp [device_matching_callback, hg, observe, hid_do_observe]

/-- C2 witness: the amended exclusion instantiated on the concrete
self-originated device in the concrete grabbed state. -/
theorem C2_self_originated_exclusion_witness :
    grab grabbedState.hid_system_caps_lock sampleVirtualDevice = (sampleVirtualDevice, []) ∧
    (device_matching_callback grabbedState sampleVirtualDevice).2 =
      [call.log_info "matching device"] := by
  have h := C2_self_originated_exclusion_amended grabbedState
    grabbedState.hid_system_caps_lock sampleVirtualDevice (by decide)
  exact ⟨h.1, h.2.2.1 (by decide)⟩

/-- C7: calling `ungrab_devices()` while the Grabbed Flag is already
false is a complete no-op — the state is returned unchanged and no
observable call (device handle, modifier tracker, caps-lock facility,
session client, timer, or log) is made — and repeating the call leaves
the state identical. -/
theorem C7_ungrab_devices_noop_when_ungrabbed (s : device_grabber)
    (h : s.grabbed_ = false) :
    ungrab_devices s = (s, []) ∧
    ungrab_devices (ungrab_devices s).1 = (s, []) := by
  have h1 : ungrab_devices s = (s, []) := by simp [ungrab_devices, h]
  have h2 : (ungrab_devices s).1 = s := by rw [h1]
  exact ⟨h1, by rw [h2, h1]⟩

/-- C7 witness: the no-op instantiated on the concrete ungrabbed state. -/
theorem C7_ungrab_devices_noop_witness :
    emptyUngrabbedState.grabbed_ = false ∧
    ungrab_devices emptyUngrabbedState = (emptyUngrabbedState, []) := by
  exact ⟨rfl, (C7_ungrab_devices_noop_when_ungrabbed emptyUngrabbedState rfl).1⟩

/-- C9: when the per-device grab synchronises a device's caps-lock LED,
the LED is set to on only when the system caps-lock query returns a
value that is true; when the query returns false or returns no value at
all, the LED is set to off. -/
theorem C9_caps_lock_led_defaults_off (caps : Option Bool)
    (hid : human_interface_device) (h : ¬ is_self_originated hid) :
    (caps = some true →
      (grab caps hid).1.caps_lock_led = some led_state.on ∧
      call.hid_set_caps_lock_led hid.ident led_state.on ∈ (grab caps hid).2) ∧
    (caps = some false →
      (grab caps hid).1.caps_lock_led = some led_state.off ∧
      call.hid_set_caps_lock_led hid.ident led_state.off ∈ (grab caps hid).2) ∧
    (caps = none →
      (grab caps hid).1.caps_lock_led = some led_state.off ∧
      call.hid_set_caps_lock_led hid.ident led_state.off ∈ (grab caps hid).2) := by
  have hm : ¬ hid.manufacturer = some "pqrs.org" := h
  refine ⟨?_, ?_, ?_⟩ <;> intro hc <;> subst hc <;>
    simp [grab_of_not_self _ hid hm]

/-- C3: on a timer tick where the Grabbed Flag is false and both safety
preconditions pass (engine ready, zero pressed keys), the grab
completion sets the Grabbed Flag, runs exactly the per-device
grab-and-clear loop over the registry followed by the modifier-tracker
reset, the caps-lock force-off, the completion log and the timer
cancellation; afterwards every non-self-originated device is in the
grabbed capability state with cleared key buffers, the Modifier Flag
Tracker is empty, hardware caps-lock is off and the Grab Timer is gone. -/
theorem C3_grab_completion (ready : Bool) (now : Int) (s : device_grabber)
    (hg : s.grabbed_ = false) (hr : ready = true)
    (hp : get_all_devices_pressed_keys_count s = 0) :
    (grab_timer_tick ready now s).1.grabbed_ = true ∧
    (grab_timer_tick ready now s).1.hids_ =
      s.hids_.map (fun hid => (grab_loop_step s.hid_system_caps_lock hid).1) ∧
    (∀ hid ∈ (grab_timer_tick ready now s).1.hids_,
      hid.changed_keys_count = 0 ∧ hid.pressed_keys_count = 0 ∧
      (¬ is_self_originated hid → hid.mode = hid_mode.grabbed)) ∧
    (∀ hid ∈ s.hids_, ¬ is_self_originated hid →
      call.hid_seize hid.ident ∈ (grab_timer_tick ready now s).2) ∧
    (grab_timer_tick ready now s).1.modifier_flag_manager_ = [] ∧
    (grab_timer_tick ready now s).1.hid_system_caps_lock = some false ∧
    (grab_timer_tick ready now s).1.grab_timer_ = none ∧
    call.log_info "devices are grabbed" ∈ (grab_timer_tick ready now s).2 ∧
    (grab_timer_tick ready now s).2 =
      (s.hids_.map (fun hid => (grab_loop_step s.hid_system_caps_lock hid).2)).flatten ++
      [call.modifier_flag_manager_reset, call.set_caps_lock_state false,
       call.log_info "devices are grabbed"] ++
      (s.grab_timer_.map call.timer_cancel).toList := by
  rw [grab_timer_tick_success ready now s hg hr hp]
  obtain ⟨h1, h2, h3, h4, h5, h6⟩ := grab_devices_grab_spec s
  refine ⟨h1, h2, ?_, ?_, h3, h4, h5, ?_, h6⟩
  · intro hid hm
    rw [h2] at hm
    obtain ⟨a, ha, rfl⟩ := List.mem_map.mp hm
    obtain ⟨f1, f2, f3, f4, f5⟩ := grab_loop_step_fst_facts s.hid_system_caps_lock a
    refine ⟨f1, f2, ?_⟩
    intro hns
    exact f5 (fun hcon => hns (by unfold is_self_originated; rw [f3]; exact hcon))
  · intro hid hm hns
    rw [h6]
    have hseize : call.hid_seize hid.ident ∈ (grab_loop_step s.hid_system_caps_lock hid).2 := by
      rw [grab_loop_step_of_not_self _ hid hns]
      simp
    exact List.mem_append_left _ (List.mem_append_left _ (mem_flatten_map _ _ _ _ hm hseize))
  · rw [h6]
    simp

/-- C3 witness: the grab completion instantiated at time 200 on the
concrete ready state (two devices, no pressed keys, engine ready). -/
theorem C3_grab_completion_witness :
    (grab_timer_tick true 200 readyState).1.grabbed_ = true ∧
    (grab_timer_tick true 200 readyState).1.modifier_flag_manager_ = [] ∧
    (grab_timer_tick true 200 readyState).1.hid_system_caps_lock = some false ∧
    (grab_timer_tick true 200 readyState).1.grab_timer_ = none := by
  have h := C3_grab_completion true 200 readyState rfl rfl (by decide)
  exact ⟨h.1, h.2.2.2.2.1, h.2.2.2.2.2.1, h.2.2.2.2.2.2.1⟩

/-- C4: `ungrab_devices()` while the Grabbed Flag is true clears the
flag, cancels any armed timer, runs exactly the per-device
release-observe-and-clear loop, resets the Modifier Flag Tracker, forces
hardware caps-lock off, stops key repeat on the session client, and logs
completion; afterwards every non-self-originated device is back in the
observed capability state with cleared key buffers. -/
theorem C4_ungrab_devices_while_grabbed (s : device_grabber)
    (h : s.grabbed_ = true) :
    (ungrab_devices s).1.grabbed_ = false ∧
    (ungrab_devices s).1.grab_timer_ = none ∧
    (ungrab_devices s).1.hids_ = s.hids_.map (fun hid => (ungrab_loop_step hid).1) ∧
    (∀ hid ∈ (ungrab_devices s).1.hids_,
      hid.changed_keys_count = 0 ∧ hid.pressed_keys_count = 0 ∧
      (¬ is_self_originated hid → hid.mode = hid_mode.observed)) ∧
    (∀ hid ∈ s.hids_, ¬ is_self_originated hid →
      call.hid_release hid.ident ∈ (ungrab_devices s).2 ∧
      call.hid_observe hid.ident ∈ (ungrab_devices s).2) ∧
    (ungrab_devices s).1.modifier_flag_manager_ = [] ∧
    (ungrab_devices s).1.hid_system_caps_lock = some false ∧
    call.stop_key_repeat ∈ (ungrab_devices s).2 ∧
    call.log_info "devices are ungrabbed" ∈ (ungrab_devices s).2 ∧
    (ungrab_devices s).2 =
      (s.grab_timer_.map call.timer_cancel).toList ++
      (s.hids_.map (fun hid => (ungrab_loop_step hid).2)).flatten ++
      [call.modifier_flag_manager_reset, call.set_caps_lock_state false,
       call.stop_key_repeat, call.log_info "devices are ungrabbed"] := by
  obtain ⟨h1, h2, h3, h4, h5, h6⟩ := ungrab_devices_spec s h
  refine ⟨h1, h5, h2, ?_, ?_, h3, h4, ?_, ?_, h6⟩
  · intro hid hm
    rw [h2] at hm
    obtain ⟨a, ha, rfl⟩ := List.mem_map.mp hm
    obtain ⟨f1, f2, f3, f4, f5⟩ := ungrab_loop_step_fst_facts a
    refine ⟨f1, f2, ?_⟩
    intro hns
    exact f5 (fun hcon => hns (by unfold is_self_originated; rw [f3]; exact hcon))
  · intro hid hm hns
    rw [h6]
    have hrel : call.hid_release hid.ident ∈ (ungrab_loop_step hid).2 := by
      rw [ungrab_loop_step_of_not_self hid hns]
      simp
    have hobs : call.hid_observe hid.ident ∈ (ungrab_loop_step hid).2 := by
      rw [ungrab_loop_step_of_not_self hid hns]
      simp
    constructor
    · exact List.mem_append_left _
        (List.mem_append_right _ (mem_flatten_map _ _ _ _ hm hrel))
    · exact List.mem_append_left _
        (List.mem_append_right _ (mem_flatten_map _ _ _ _ hm hobs))
  · rw [h6]
    simp
  · rw [h6]
    simp

/-- C4 witness: ungrab instantiated on the concrete grabbed state. -/
theorem C4_ungrab_devices_witness :
    (ungrab_devices grabbedState).1.grabbed_ = false ∧
    (ungrab_devices grabbedState).1.modifier_flag_manager_ = [] ∧
    call.stop_key_repeat ∈ (ungrab_devices grabbedState).2 := by
  have h := C4_ungrab_devices_while_grabbed grabbedState rfl
  exact ⟨h.1, h.2.2.2.2.2.1, h.2.2.2.2.2.2.2.1⟩

/-- C9 witness: the LED synchronisation instantiated on the concrete
keyboard for all three query outcomes. -/
theorem C9_caps_lock_led_witness :
    (grab (some true) sampleKeyboard).1.caps_lock_led = some led_state.on ∧
    (grab (some false) sampleKeyboard).1.caps_lock_led = some led_state.off ∧
    (grab none sampleKeyboard).1.caps_lock_led = some led_state.off := by
  refine ⟨((C9_caps_lock_led_defaults_off (some true) sampleKeyboard (by decide)).1 rfl).1,
          ((C9_caps_lock_led_defaults_off (some false) sampleKeyboard (by decide)).2.1 rfl).1,
          ((C9_caps_lock_led_defaults_off none sampleKeyboard (by decide)).2.2 rfl).1⟩

/-- C5: the event router never mutates the state; while the Grabbed Flag
is false no call reaches the remapping engine; while it is true, a
keyboard-page usage strictly between the error/undefined and reserved
sentinels produces exactly one `handle_keyboard_event` call whose
pressed flag is set exactly when the raw value is non-zero; the vendor
function-key usage on the top-case page is forwarded as the dedicated
`vk_fn_modifier` key code; every other usage page/usage produces no
call. -/
theorem C5_value_callback_routing (s : device_grabber)
    (dev : human_interface_device) (up u : Nat) (v : Int) :
    (value_callback s dev up u v).1 = s ∧
    (s.grabbed_ = false → (value_callback s dev up u v).2 = []) ∧
    (s.grabbed_ = true → up = kHIDPage_KeyboardOrKeypad →
      kHIDUsage_KeyboardErrorUndefined < u → u < kHIDUsage_Keyboard_Reserved →
      (value_callback s dev up u v).2 =
        [call.handle_keyboard_event dev.registry_entry_id u (decide (v ≠ 0))]) ∧
    (s.grabbed_ = true → up = kHIDPage_AppleVendorTopCase →
      u = kHIDUsage_AV_TopCase_KeyboardFn →
      (value_callback s dev up u v).2 =
        [call.handle_keyboard_event dev.registry_entry_id vk_fn_modifier (decide (v ≠ 0))]) ∧
    (s.grabbed_ = true →
      ¬(up = kHIDPage_KeyboardOrKeypad ∧ kHIDUsage_KeyboardErrorUndefined < u ∧
        u < kHIDUsage_Keyboard_Reserved) →
      ¬(up = kHIDPage_AppleVendorTopCase ∧ u = kHIDUsage_AV_TopCase_KeyboardFn) →
      (value_callback s dev up u v).2 = []) := by
  have hpb : (if v = 0 then false else true) = decide (v ≠ 0) := by
    by_cases hv : v = 0 <;> simp [hv]
  refine ⟨?_, ?_, ?_, ?_, ?_⟩
  · unfold value_callback
    repeat' split
    all_goals rfl
  · intro hg
    simp [value_callback, hg]
  · intro hg hup h1 h2
    simp [value_callback, hg, hup, h1, h2, hpb]
  · intro hg hup hu
    simp [value_callback, hg, hup, hu, hpb,
          kHIDPage_AppleVendorTopCase, kHIDPage_KeyboardOrKeypad]
  · intro hg hnk hnt
    by_cases hup : up = kHIDPage_KeyboardOrKeypad
    · by_cases hb : kHIDUsage_KeyboardErrorUndefined < u ∧ u < kHIDUsage_Keyboard_Reserved
      · exact absurd ⟨hup, hb.1, hb.2⟩ hnk
      · simp [value_callback, hg, hup, hb]
    · by_cases hup2 : up = kHIDPage_AppleVendorTopCase
      · have hu : ¬ u = kHIDUsage_AV_TopCase_KeyboardFn := fun hu => hnt ⟨hup2, hu⟩
        subst hup2
        simp [value_callback, hg, hu,
              kHIDPage_AppleVendorTopCase, kHIDPage_KeyboardOrKeypad]
      · simp [value_callback, hg, hup, hup2]

/-- C5 witness: routing instantiated on the concrete grabbed state with a
keyboard-page event (raw value 1 and 0) and on the ungrabbed state. -/
theorem C5_value_callback_witness :
    (value_callback grabbedState sampleKeyboard 7 4 1).2 =
      [call.handle_keyboard_event 11 4 true] ∧
    (value_callback grabbedState sampleKeyboard 7 4 0).2 =
      [call.handle_keyboard_event 11 4 false] ∧
    (value_callback emptyUngrabbedState sampleKeyboard 7 4 1).2 = [] := by
  refine ⟨?_, ?_, ?_⟩
  · have h := (C5_value_callback_routing grabbedState sampleKeyboard 7 4 1).2.2.1
      rfl rfl (by decide) (by decide)
    simpa using h
  · have h := (C5_value_callback_routing grabbedState sampleKeyboard 7 4 0).2.2.1
      rfl rfl (by decide) (by decide)
    simpa using h
  · exact (C5_value_callback_routing emptyUngrabbedState sampleKeyboard 7 4 1).2.1 rfl

theorem grab_devices_fst_spec (now : Int) (s : device_grabber)
    (h : s.alive_timers = s.grab_timer_.toList) :
    (grab_devices now s).1.alive_timers = [s.next_timer_id] ∧
    (grab_devices now s).1.grab_timer_ = some s.next_timer_id ∧
    (grab_devices now s).1.next_timer_id = s.next_timer_id + 1 ∧
    (grab_devices now s).1.grab_retry_count_ = 0 ∧
    (grab_devices now s).2 =
      (s.grab_timer_.map call.timer_cancel).toList ++
      [call.timer_create s.next_timer_id] := by
  obtain ⟨hids, gt, ats, nt, rc, g, mfm, caps, lw⟩ := s
  cases gt <;> simp_all [grab_devices, cancel_grab_timer, List.filter]

/-- C6: at most one Grab Timer is alive at any time — whenever the alive
timers are exactly the one owned by `grab_timer_`, a `grab_devices()`
call cancels the owned timer (when there is one) before creating and
arming a fresh one and resets the retry count, and two back-to-back
`grab_devices()` calls leave exactly one alive timer, the second call's
trace cancelling the first call's timer before arming its own. -/
theorem C6_at_most_one_grab_timer (t1 t2 : Int) (s : device_grabber)
    (h : s.alive_timers = s.grab_timer_.toList) :
    (grab_devices t1 s).1.alive_timers = [s.next_timer_id] ∧
    (grab_devices t1 s).1.grab_timer_ = some s.next_timer_id ∧
    (grab_devices t1 s).1.grab_retry_count_ = 0 ∧
    (∀ t, s.grab_timer_ = some t →
      (grab_devices t1 s).2 = [call.timer_cancel t, call.timer_create s.next_timer_id]) ∧
    (s.grab_timer_ = none →
      (grab_devices t1 s).2 = [call.timer_create s.next_timer_id]) ∧
    (grab_devices t2 (grab_devices t1 s).1).1.alive_timers = [s.next_timer_id + 1] ∧
    (grab_devices t2 (grab_devices t1 s).1).2 =
      [call.timer_cancel s.next_timer_id, call.timer_create (s.next_timer_id + 1)] := by
  obtain ⟨a1, g1, n1, r1, tr1⟩ := grab_devices_fst_spec t1 s h
  have h2 : (grab_devices t1 s).1.alive_timers = (grab_devices t1 s).1.grab_timer_.toList := by
    rw [a1, g1]
    rfl
  obtain ⟨a2, g2, n2, r2, tr2⟩ := grab_devices_fst_spec t2 _ h2
  refine ⟨a1, g1, r1, ?_, ?_, ?_, ?_⟩
  · intro t ht
    rw [tr1, ht]
    rfl
  · intro ht
    rw [tr1, ht]
    rfl
  · rw [a2, n1]
  · rw [tr2, g1, n1]
    rfl

/-- C6 witness: two back-to-back `grab_devices()` calls on the concrete
empty state leave exactly one alive timer. -/
theorem C6_at_most_one_grab_timer_witness :
    emptyUngrabbedState.alive_timers = emptyUngrabbedState.grab_timer_.toList ∧
    (grab_devices 0 emptyUngrabbedState).1.alive_timers = [0] ∧
    (grab_devices 1 (grab_devices 0 emptyUngrabbedState).1).1.alive_timers = [1] := by
  have h := C6_at_most_one_grab_timer 0 1 emptyUngrabbedState rfl
  exact ⟨rfl, h.1, h.2.2.2.2.2.1⟩

/-- C8: removing an identity that is not in the Device Registry is a
no-op — the whole state is unchanged and no call is made; removing a
present identity logs the removal and erases exactly the matching
entry, leaving every other entry and the rest of the state intact. -/
theorem C8_device_removal (s : device_grabber) (ident : Nat) :
    ((∀ h ∈ s.hids_, h.ident ≠ ident) →
      device_removal_callback s ident = (s, [])) ∧
    ((∃ d ∈ s.hids_, d.ident = ident) →
      (device_removal_callback s ident).2 = [call.log_info "removal device"] ∧
      (∀ h ∈ (device_removal_callback s ident).1.hids_, h.ident ≠ ident) ∧
      (∀ h ∈ s.hids_, h.ident ≠ ident →
        h ∈ (device_removal_callback s ident).1.hids_) ∧
      (device_removal_callback s ident).1.grabbed_ = s.grabbed_ ∧
      (device_removal_callback s ident).1.grab_timer_ = s.grab_timer_ ∧
      (device_removal_callback s ident).1.modifier_flag_manager_ =
        s.modifier_flag_manager_) := by
  constructor
  · intro hnone
    have hf : s.hids_.find? (fun h => h.ident == ident) = none := by
      rw [List.find?_eq_none]
      intro x hx
      simp [hnone x hx]
    simp [device_removal_callback, hf]
  · rintro ⟨d, hd, hdi⟩
    obtain ⟨d', hf⟩ : ∃ d', s.hids_.find? (fun h => h.ident == ident) = some d' := by
      cases hfind : s.hids_.find? (fun h => h.ident == ident) with
      | some x => exact ⟨x, rfl⟩
      | none =>
          rw [List.find?_eq_none] at hfind
          exact absurd (by simp [hdi]) (hfind d hd)
    have hfst : (device_removal_callback s ident).1.hids_ =
        s.hids_.filter (fun h => !(h.ident == ident)) := by
      simp [device_removal_callback, hf]
    refine ⟨by simp [device_removal_callback, hf], ?_, ?_, ?_, ?_, ?_⟩
    · intro h hm
      rw [hfst, List.mem_filter] at hm
      simpa using hm.2
    · intro h hm hne
      rw [hfst, List.mem_filter]
      exact ⟨hm, by simpa using hne⟩
    · simp [device_removal_callback, hf]
    · simp [device_removal_callback, hf]
    · simp [device_removal_callback, hf]

/-- C8 witness: removal of an absent identity (99) is a no-op on the
concrete state and removal of the present identity (1) logs. -/
theorem C8_device_removal_witness :
    device_removal_callback readyState 99 = (readyState, []) ∧
    (device_removal_callback readyState 1).2 = [call.log_info "removal device"] := by
  exact ⟨(C8_device_removal readyState 99).1 (by decide),
         ((C8_device_removal readyState 1).2 ⟨sampleKeyboard, by decide, rfl⟩).1⟩

/-- C10: the buffered-key clearing loops of the grab completion and of
`ungrab_devices` iterate over every registered device, emitting the
clear calls even for self-originated devices, while the per-device grab
and ungrab themselves make no handle call on a self-originated device. -/
theorem C10_clears_include_self_originated (s : device_grabber)
    (hg : s.grabbed_ = true) :
    (∀ hid ∈ s.hids_,
      call.hid_clear_changed_keys hid.ident ∈ (grab_devices_grab s).2 ∧
      call.hid_clear_pressed_keys hid.ident ∈ (grab_devices_grab s).2) ∧
    (∀ hid ∈ s.hids_,
      call.hid_clear_changed_keys hid.ident ∈ (ungrab_devices s).2 ∧
      call.hid_clear_pressed_keys hid.ident ∈ (ungrab_devices s).2) ∧
    (∀ hid, is_self_originated hid →
      ∀ caps, (grab caps hid).2 = [] ∧ (ungrab hid).2 = []) := by
  obtain ⟨-, -, -, -, -, hgt⟩ := grab_devices_grab_spec s
  obtain ⟨-, -, -, -, -, hut⟩ := ungrab_devices_spec s hg
  refine ⟨?_, ?_, ?_⟩
  · intro hid hm
    obtain ⟨hc, hp⟩ := grab_loop_step_snd_clears s.hid_system_caps_lock hid
    rw [hgt]
    exact ⟨List.mem_append_left _ (List.mem_append_left _ (mem_flatten_map _ _ _ _ hm hc)),
           List.mem_append_left _ (List.mem_append_left _ (mem_flatten_map _ _ _ _ hm hp))⟩
  · intro hid hm
    obtain ⟨hc, hp⟩ := ungrab_loop_step_snd_clears hid
    rw [hut]
    exact ⟨List.mem_append_left _ (List.mem_append_right _ (mem_flatten_map _ _ _ _ hm hc)),
           List.mem_append_left _ (List.mem_append_right _ (mem_flatten_map _ _ _ _ hm hp))⟩
  · intro hid hs caps
    exact ⟨by rw [grab_of_self caps hid hs], by rw [ungrab_of_self hid hs]⟩

/-- C10 witness: the clear calls for the concrete self-originated device
appear in both loop traces of the concrete grabbed state, while its own
grab and ungrab emit nothing. -/
theorem C10_clears_include_self_originated_witness :
    call.hid_clear_changed_keys 2 ∈ (grab_devices_grab grabbedState).2 ∧
    call.hid_clear_pressed_keys 2 ∈ (ungrab_devices grabbedState).2 ∧
    (ungrab sampleVirtualDevice).2 = [] := by
  have h := C10_clears_include_self_originated grabbedState rfl
  exact ⟨(h.1 sampleVirtualDevice (by decide)).1,
         (h.2.1 sampleVirtualDevice (by decide)).2,
         (h.2.2 sampleVirtualDevice (by decide) none).2⟩

end Krbn
